import Mathlib

/-!
Verification of the locator-resolution and error/retry core of a
Cypress-based test-automation framework.

The embedding is a shallow one: each JavaScript function that the claims
touch is translated into a pure Lean function, with the ambient mutable
state (the locator cache) and the external world (the file system, the
DOM, the HTTP server) passed explicitly.  JavaScript truthiness, the
string-prefix sniffing of selectors, and the first-occurrence semantics of the JavaScript string replace are
modelled faithfully.
-/

set_option autoImplicit false

namespace CypressFw

/-- A thrown JavaScript error, as far as the framework observes it:
its message, the optional `type` tag a `TestError` carries (`none` for a
plain `Error`, which has no `type` field), and the `details.errors` list
a `TestError` may carry (empty for plain errors). -/
structure ErrJS where
  message : String
  etype : Option String
  errs : List String
deriving DecidableEq, Repr

/-- A parsed YAML value, restricted to the shapes the locator documents
use: scalar strings and mappings (association lists, first binding
wins, as JavaScript object indexing observes). -/
inductive YamlVal where
  | str (s : String)
  | obj (m : List (String × YamlVal))

/-- JavaScript truthiness of a `YamlVal`: a string is truthy iff it is
nonempty; any object (even `{}`) is truthy. -/
def truthy : YamlVal → Bool
  | .str s => s ≠ ""
  | .obj _ => true

/-- JavaScript property read `v[k]`: lookup on an object, `undefined`
(here `none`) on a scalar string. -/
def jsIndex : YamlVal → String → Option YamlVal
  | .obj m, k => (m.find? (fun e => e.1 == k)).map (fun e => e.2)
  | .str _, _ => none

/-- JavaScript `a || b` where `a` is a possibly-`undefined` property
read: yields `a` when defined and truthy, otherwise `b`. -/
def jsOr (a : Option YamlVal) (b : YamlVal) : YamlVal :=
  match a with
  | some v => if truthy v then v else b
  | none => b

/-- Namespace selection of locatorHelper.js line 38, pageNamePage-key
or pageName-key or the document root: the namespace the element key is looked up
in.  Note this selects the first *present and truthy* namespace; the
element key plays no role in the selection. -/
def pageLocators (locators : YamlVal) (pageName : String) : YamlVal :=
  jsOr (jsIndex locators (pageName ++ "Page"))
    (jsOr (jsIndex locators pageName) locators)

/-- The error thrown by `getLocator` (locatorHelper.js line 42): a plain
`Error` (no `type` tag) whose message is
`Locator not found: <pageName>.<elementKey>`. -/
def notFoundErr (pageName elementKey : String) : ErrJS :=
  ⟨"Locator not found: " ++ pageName ++ "." ++ elementKey, none, []⟩

/-- The pure part of `getLocator` (locatorHelper.js lines 36-47), given
the already-loaded document: select the namespace, read the element
key, and throw unless the value is truthy (`if (!selector) throw`). -/
def getLocatorPure (locators : YamlVal) (pageName elementKey : String) :
    Except ErrJS YamlVal :=
  match jsIndex (pageLocators locators pageName) elementKey with
  | some selector => if truthy selector then .ok selector
      else .error (notFoundErr pageName elementKey)
  | none => .error (notFoundErr pageName elementKey)

/-! ### The locator cache and the document store

`locatorCache` (locatorHelper.js line 9) is a module-level mutable
object; we pass it explicitly as an association list.  The document
store (a `cy.task` call backed by the `readYamlFile` task of
the Cypress config) is a partial map from absolute paths to parsed
documents. -/

/-- The locator cache: `pageName ↦ parsed document`. -/
abbrev Cache := List (String × YamlVal)

/-- Cache read of locatorHelper.js line 20, an `if` on the stored
value: a cache
hit requires the stored value to be truthy. -/
def cacheGet (cache : Cache) (pageName : String) : Option YamlVal :=
  match cache.find? (fun e => e.1 == pageName) with
  | some e => if truthy e.2 then some e.2 else none
  | none => none

/-- Model of `clearLocatorCache` (locatorHelper.js lines 135-137),
which deletes every
key of the cache. -/
def clearLocatorCache : Cache := []

/-- The `readYamlFile` Cypress task (config lines 78-87):
`path.resolve(__dirname, filePath)` then read-or-throw, the throw
message being `YAML file not found: <absolutePath>`. -/
def readYamlFile (fs : String → Option YamlVal) (dirname filePath : String) :
    Except ErrJS YamlVal :=
  let absolutePath := dirname ++ "/" ++ filePath
  match fs absolutePath with
  | some doc => .ok doc
  | none => .error ⟨"YAML file not found: " ++ absolutePath, none, []⟩

/-- The absolute path that the read issued by `loadLocators` resolves
to for a page:
`path.resolve(__dirname, "cypress/locators/<pageName>.yaml")`. -/
def absLocatorPath (dirname pageName : String) : String :=
  dirname ++ "/" ++ ("cypress/locators/" ++ pageName ++ ".yaml")

/-- Model of `loadLocators` (locatorHelper.js lines 16-28): return the cached
document when the cache holds a truthy value for the page, otherwise
read `cypress/locators/<pageName>.yaml` through the `readYamlFile` task
and cache the result.  The third component counts document-store
accesses performed by the call. -/
def loadLocators (fs : String → Option YamlVal) (dirname : String)
    (cache : Cache) (pageName : String) :
    Except ErrJS YamlVal × Cache × Nat :=
  match cacheGet cache pageName with
  | some doc => (.ok doc, cache, 0)
  | none =>
    match readYamlFile fs dirname ("cypress/locators/" ++ pageName ++ ".yaml") with
    | .ok doc => (.ok doc, (pageName, doc) :: cache, 1)
    | .error e => (.error e, cache, 1)

/-- Model of `getLocator` (locatorHelper.js lines 36-47) with its load step:
`loadLocators(pageName).then(locators => ...)`.  This is the resolve
operation of the spec. -/
def getLocator (fs : String → Option YamlVal) (dirname : String)
    (cache : Cache) (pageName elementKey : String) :
    Except ErrJS YamlVal × Cache × Nat :=
  match loadLocators fs dirname cache pageName with
  | (.ok doc, cache1, n) => (getLocatorPure doc pageName elementKey, cache1, n)
  | (.error e, cache1, n) => (.error e, cache1, n)

/-! ### Selector classification

`resolveSelector` (locatorHelper.js lines 67-80) sniffs the selector
prefix of the selector string and dispatches to `cy.xpath`,
`cy.contains`, or `cy.get`.  The classify function of the spec is this
dispatch made explicit: the kind is which host query fires, the
payload is the argument passed to it.  The source strips prefixes with
the JavaScript string replace, which replaces the first occurrence of
a literal string pattern. -/

/-- Which host-runner query a selector dispatches to. -/
inductive SelKind where
  | CSS
  | XPath
  | Text
deriving DecidableEq, Repr

/-- Result of classifying a selector string. -/
structure Classified where
  kind : SelKind
  payload : String
deriving DecidableEq, Repr

/-- Remove the first occurrence of `pat` from a character list
(leftmost match, as `String.prototype.replace` with a string pattern
and empty replacement does). -/
def removeFirst (pat : List Char) : List Char → List Char
  | [] => []
  | c :: cs =>
    if pat.isPrefixOf (c :: cs) then (c :: cs).drop pat.length
    else c :: removeFirst pat cs

/-- JavaScript string replace of `pat` by the empty string (string
pattern: literal, first occurrence only). -/
def jsReplaceEmpty (s pat : String) : String :=
  ⟨removeFirst pat.data s.data⟩

/-- JavaScript `s.startsWith(pat)`. -/
def jsStartsWith (s pat : String) : Bool :=
  pat.data.isPrefixOf s.data

/-- The classification performed by `resolveSelector` (locatorHelper.js
lines 67-80): `xpath=` prefix → XPath query on the rest, else `text=`
prefix → text-contains query on the rest, else CSS query on the whole
string. -/
def classify (selector : String) : Classified :=
  if jsStartsWith selector "xpath=" then
    ⟨.XPath, jsReplaceEmpty selector "xpath="⟩
  else if jsStartsWith selector "text=" then
    ⟨.Text, jsReplaceEmpty selector "text="⟩
  else
    ⟨.CSS, selector⟩

/-! ### The error/retry envelope (error handler module) -/

/-- An effect the envelope asks the host runner to perform. -/
inductive HostAction where
  | click (selector : String) (timeout : Nat) (force : Bool)
deriving DecidableEq, Repr

/-- The DOM as the existence probes observe it: the number of matches a
jQuery `$body.find(raw)` call yields for a raw selector string, whether
`document.evaluate` finds a first node for an XPath expression, and the
rendered body text. -/
structure Dom where
  bodyFindCount : String → Nat
  xpathFirstMatch : String → Bool
  bodyText : String

/-- Does `sub` occur as a contiguous run inside the list?  Used to model
the JavaScript substring test. -/
def hasInfix (sub : List Char) : List Char → Bool
  | [] => sub.isEmpty
  | c :: cs => sub.isPrefixOf (c :: cs) || hasInfix sub cs

/-- JavaScript `s.includes(sub)`: substring test. -/
def jsIncludes (s sub : String) : Bool :=
  hasInfix sub.data s.data

/-- The selector-level existence check of `elementExists`
(locatorHelper.js lines 111-127): an `xpath=` selector is evaluated via
`document.evaluate` on its stripped expression, a `text=` selector by a
substring test of its stripped literal against the body text, and every
other selector by a CSS `$body.find` count.  This is the exists check
of the Resolver in the spec. -/
def existsProbe (dom : Dom) (selector : String) : Bool :=
  if jsStartsWith selector "xpath=" then
    dom.xpathFirstMatch (jsReplaceEmpty selector "xpath=")
  else if jsStartsWith selector "text=" then
    jsIncludes dom.bodyText (jsReplaceEmpty selector "text=")
  else
    dom.bodyFindCount selector > 0

/-- Model of `safeClick` (error handler lines 99-113): guard on
`$body.find(selector).length > 0` — a plain CSS find applied to the raw
selector string whatever its prefix, unlike the dispatching
`existsProbe`; if it matches, one
`cy.get(selector, {timeout}).click({force})`; otherwise throw a
`TestError` of type `ELEMENT_NOT_FOUND` at once.  The result lists the
host actions performed. -/
def safeClick (dom : Dom) (selector : String)
    (timeout : Nat) (force : Bool) : Except ErrJS (List HostAction) :=
  if dom.bodyFindCount selector > 0 then
    .ok [.click selector timeout force]
  else
    .error ⟨"Element not found: " ++ selector, some "ELEMENT_NOT_FOUND", []⟩

/-- Does an `Except` hold a failure? -/
def isFail {ε α : Type} : Except ε α → Bool
  | .error _ => true
  | .ok _ => false

/-- The recursive `attempt` closure of `retry` (error handler lines
207-222).  The action is modelled as a function from the attempt index
(0-based) to the outcome of that attempt; `idx` is the index of the next
attempt and `retriesLeft` the remaining retry budget.  The result
carries the final outcome, the number of attempts made, and the list of
`cy.wait` delays performed, in order. -/
def retryAttempt {ε α : Type} (act : Nat → Except ε α) (delay : Nat) :
    Nat → Nat → Except ε α × Nat × List Nat
  | idx, retriesLeft =>
    match act idx with
    | .ok a => (.ok a, 1, [])
    | .error e =>
      match retriesLeft with
      | 0 => (.error e, 1, [])
      | r + 1 =>
        let rest := retryAttempt act delay (idx + 1) r
        (rest.1, rest.2.1 + 1, delay :: rest.2.2)

/-- Model of `retry(fn, maxRetries, delay)` (error handler lines
207-222): run
the action; on failure wait `delay` and retry, up to `maxRetries`
additional attempts; then rethrow the last error. -/
def retry {ε α : Type} (act : Nat → Except ε α) (maxRetries delay : Nat) :
    Except ε α × Nat × List Nat :=
  retryAttempt act delay 0 maxRetries

/-! ### API response validation (error handler lines 168-198) -/

/-- An API response as `validateApiResponse` reads it: the status code
and the own properties of the body (string-valued, which the cited
expectations use). -/
structure ApiResponse where
  status : Nat
  body : List (String × String)
deriving DecidableEq, Repr

/-- The `expectations` argument: each check runs only when its field is
present (JavaScript truthiness on the field; arrays and objects are
truthy even when empty, a `0` status is falsy). -/
structure ApiExpectations where
  status : Option Nat
  properties : Option (List String)
  values : Option (List (String × String))
deriving DecidableEq, Repr

/-- Body property read `response.body[key]` — `none` is JavaScript
`undefined`. -/
def bodyGet (body : List (String × String)) (k : String) : Option String :=
  (body.find? (fun e => e.1 == k)).map (fun e => e.2)

/-- How `${response.body[key]}` prints in the mismatch message. -/
def jsShowVal : Option String → String
  | some s => s
  | none => "undefined"

/-- The accumulated mismatch list of `validateApiResponse`: status
mismatch, then one entry per missing property, then one entry per value
mismatch, in source order. -/
def apiViolations (r : ApiResponse) (e : ApiExpectations) : List String :=
  (match e.status with
    | some s =>
      if s ≠ 0 ∧ r.status ≠ s then
        ["Expected status " ++ toString s ++ ", got " ++ toString r.status]
      else []
    | none => []) ++
  (match e.properties with
    | some ps => ps.filterMap (fun p =>
        if (r.body.find? (fun b => b.1 == p)).isSome then none
        else some ("Missing property: " ++ p))
    | none => []) ++
  (match e.values with
    | some kvs => kvs.filterMap (fun kv =>
        if bodyGet r.body kv.1 = some kv.2 then none
        else some ("Expected " ++ kv.1 ++ " to be " ++ kv.2 ++ ", got " ++
          jsShowVal (bodyGet r.body kv.1)))
    | none => [])

/-- Model of `validateApiResponse(response, expectations)` (error
handler lines 168-198): collect every mismatch, and throw a single `TestError` of
type `API_ERROR` carrying the whole list iff it is nonempty. -/
def validateApiResponse (r : ApiResponse) (e : ApiExpectations) :
    Except ErrJS Unit :=
  let errors := apiViolations r e
  if errors.length > 0 then
    .error ⟨"API validation failed: " ++ String.intercalate "; " errors,
      some "API_ERROR", errors⟩
  else
    .ok ()

/-! ### `retryRequest` (apiHelper.js lines 226-241) -/

/-- The recursive `makeRequest` closure of `retryRequest`.  The server
is modelled as a function from the request index (0-based) to the
response status; `attempts` is the count of requests already made.  The
result carries the final status, the total number of requests, and the
`cy.wait` delays performed.  A retry fires only while the status is
`>= 500` and strictly fewer than `maxRetries` requests have been made. -/
def makeRequest (respond : Nat → Nat) (maxRetries delay : Nat)
    (attempts : Nat) : Nat × Nat × List Nat :=
  let a := attempts + 1
  let status := respond attempts
  if _h : status ≥ 500 ∧ a < maxRetries then
    let rest := makeRequest respond maxRetries delay a
    (rest.1, rest.2.1, delay :: rest.2.2)
  else
    (status, a, [])
termination_by maxRetries - attempts
decreasing_by
  omega

/-- Model of `retryRequest(options, maxRetries, delay)` (apiHelper.js
lines 226-241): request, and while the response status is a server error
(`>= 500`) and the attempt count is below `maxRetries`, wait and
request again; always return the last response. -/
def retryRequest (respond : Nat → Nat) (maxRetries delay : Nat) :
    Nat × Nat × List Nat :=
  makeRequest respond maxRetries delay 0

/-! ### Sample inputs used by witnesses and counterexamples -/

/-- A locator document nesting the login page data under `loginPage`. -/
def loginDoc : YamlVal :=
  .obj [("loginPage", .obj [("btn", .str "#b")])]

/-- A file system holding only the login locator document, at the path
the registry resolves for page `login` under directory `/app`. -/
def loginFs : String → Option YamlVal :=
  fun path => if path = "/app/cypress/locators/login.yaml" then some loginDoc else none

/-- A document whose root holds `btn` while the `loginPage` key is also
present but lacks `btn`: the root namespace contains the key, yet the
selected namespace does not. -/
def shadowedDoc : YamlVal :=
  .obj [("loginPage", .obj [("other", .str "x")]), ("btn", .str "#btn")]

/-- A flat document mapping `btn` to the empty string. -/
def emptySelDoc : YamlVal :=
  .obj [("btn", .str "")]

/-- A flat document with no nesting at all. -/
def flatDoc : YamlVal :=
  .obj [("btn", .str "#b")]

/-- A DOM whose body text contains the word `Submit`, but in which no
raw selector string matches as a CSS selector and no XPath expression
matches a node. -/
def textOnlyDom : Dom :=
  ⟨fun _ => 0, fun _ => false, "Please Submit the form"⟩

/-- A DOM in which every CSS find yields exactly one match. -/
def oneMatchDom : Dom :=
  ⟨fun _ => 1, fun _ => false, ""⟩

theorem retryAttempt_ok {ε α : Type} (act : Nat → Except ε α) (delay : Nat) (a : α) :
    ∀ (n idx rl : Nat), n ≤ rl →
      (∀ i, i < n → isFail (act (idx + i)) = true) →
      act (idx + n) = .ok a →
      retryAttempt act delay idx rl = (.ok a, n + 1, List.replicate n delay) := by
  intro n
  induction n with
  | zero =>
    intro idx rl _ _ hok
    rw [Nat.add_zero] at hok
    simp [retryAttempt, hok]
  | succ n ih =>
    intro idx rl hle hfail hok
    have h0 : isFail (act idx) = true := by
      have := hfail 0 (Nat.succ_pos n)
      rwa [Nat.add_zero] at this
    obtain ⟨e, he⟩ : ∃ e, act idx = .error e := by
      cases hact : act idx with
      | error e => exact ⟨e, rfl⟩
      | ok a1 => rw [hact] at h0; simp [isFail] at h0
    cases rl with
    | zero => omega
    | succ r =>
      have ihr := ih (idx + 1) r (by omega)
        (fun i hi => by
          have := hfail (i + 1) (by omega)
          rwa [show idx + (i + 1) = idx + 1 + i by omega] at this)
        (by rw [show idx + 1 + n = idx + (n + 1) by omega]; exact hok)
      simp [retryAttempt, he, ihr, List.replicate_succ]

theorem retryAttempt_fail {ε α : Type} (act : Nat → Except ε α) (delay : Nat) (e : ε) :
    ∀ (rl idx : Nat),
      (∀ i, i < rl → isFail (act (idx + i)) = true) →
      act (idx + rl) = .error e →
      retryAttempt act delay idx rl = (.error e, rl + 1, List.replicate rl delay) := by
  intro rl
  induction rl with
  | zero =>
    intro idx _ herr
    rw [Nat.add_zero] at herr
    simp [retryAttempt, herr]
  | succ r ih =>
    intro idx hfail herr
    have h0 : isFail (act idx) = true := by
      have := hfail 0 (Nat.succ_pos r)
      rwa [Nat.add_zero] at this
    obtain ⟨e0, he0⟩ : ∃ e0, act idx = .error e0 := by
      cases hact : act idx with
      | error e0 => exact ⟨e0, rfl⟩
      | ok a1 => rw [hact] at h0; simp [isFail] at h0
    have ihr := ih (idx + 1)
      (fun i hi => by
        have := hfail (i + 1) (by omega)
        rwa [show idx + (i + 1) = idx + 1 + i by omega] at this)
      (by rw [show idx + 1 + r = idx + (r + 1) by omega]; exact herr)
    simp [retryAttempt, he0, ihr, List.replicate_succ]

/-- C3: `retry` is a bounded-retry combinator with fixed delay.  If the
action fails on attempts `0..n-1` and succeeds on attempt `n` with
`n ≤ maxRetries`, the success result is returned after exactly `n`
delays of `delay` each (`n + 1` attempts); if every attempt fails, the
error of the last attempt (index `maxRetries`, so `maxRetries + 1`
total attempts) is propagated unchanged after exactly `maxRetries`
delays.  At `maxRetries = 3`, `delay = 100` this specialises to the two
scenarios of the claim. -/
theorem claim_C3 {ε α : Type} (act : Nat → Except ε α)
    (maxRetries delay n : Nat) (a : α) (e : ε) :
    (n ≤ maxRetries → (∀ i, i < n → isFail (act i) = true) →
      act n = .ok a →
      retry act maxRetries delay = (.ok a, n + 1, List.replicate n delay)) ∧
    ((∀ i, i < maxRetries → isFail (act i) = true) →
      act maxRetries = .error e →
      retry act maxRetries delay =
        (.error e, maxRetries + 1, List.replicate maxRetries delay)) := by
  constructor
  · intro h1 h2 h3
    exact retryAttempt_ok act delay a n 0 maxRetries h1
      (fun i hi => by rw [Nat.zero_add]; exact h2 i hi)
      (by rw [Nat.zero_add]; exact h3)
  · intro h1 h2
    exact retryAttempt_fail act delay e maxRetries 0
      (fun i hi => by rw [Nat.zero_add]; exact h1 i hi)
      (by rw [Nat.zero_add]; exact h2)

/-- Witness for C3: an action failing twice then succeeding, run with
`maxRetries = 3`, `delay = 100`, returns the success after two delays
of 100 (three attempts); an always-failing action propagates the error
of attempt 3 after four attempts and three delays. -/
theorem claim_C3_witness :
    retry (fun i => if i < 2 then Except.error i else Except.ok "done") 3 100 =
      (.ok "done", 3, [100, 100]) ∧
    retry (fun i => (Except.error i : Except Nat String)) 3 100 =
      (.error 3, 4, [100, 100, 100]) := by
  constructor
  · have h := (claim_C3 (fun i => if i < 2 then Except.error i else Except.ok "done")
      3 100 2 "done" 0).1 (by omega) (by decide) (by rfl)
    simpa using h
  · have h := (claim_C3 (fun i => (Except.error i : Except Nat String))
      3 100 0 "done" 3).2 (by decide) (by rfl)
    simpa using h

end CypressFw


namespace CypressFw

/-! ## Helper lemmas -/

theorem removeFirst_prepend (pat rest : List Char) (h : pat ≠ []) :
    removeFirst pat (pat ++ rest) = rest := by
  cases pat with
  | nil => exact absurd rfl h
  | cons c cs =>
    have h1 : (c :: cs) ++ rest = c :: (cs ++ rest) := rfl
    have hpre : (c :: cs).isPrefixOf (c :: (cs ++ rest)) = true := by
      rw [← h1]
      exact List.isPrefixOf_iff_prefix.mpr (List.prefix_append _ _)
    rw [h1, removeFirst, hpre]
    simp only [if_true]
    rw [← h1]
    exact List.drop_left _ _

theorem jsReplaceEmpty_prepend (p t : String) (h : p.data ≠ []) :
    jsReplaceEmpty (p ++ t) p = t := by
  unfold jsReplaceEmpty
  rw [String.data_append, removeFirst_prepend _ _ h]

theorem jsStartsWith_prepend (p t : String) : jsStartsWith (p ++ t) p = true := by
  unfold jsStartsWith
  rw [String.data_append]
  exact List.isPrefixOf_iff_prefix.mpr (List.prefix_append _ _)

theorem textPrefix_not_xpath (t : String) :
    jsStartsWith ("text=" ++ t) "xpath=" = false := by
  unfold jsStartsWith
  rw [String.data_append]
  show List.isPrefixOf ('x' :: "path=".data) ('t' :: ("ext=".data ++ t.data)) = false
  simp [List.isPrefixOf]

/-! ## Claims -/

/-- C4: classification of selector strings is pure and total: an
`xpath=`-prefixed string dispatches to the XPath query with the prefix
stripped, a `text=`-prefixed string to the text query with the prefix
stripped, and every other string to the CSS query with the whole string
as payload; in particular on the three concrete examples of the spec. -/
theorem claim_C4 :
    (∀ t, classify ("xpath=" ++ t) = ⟨.XPath, t⟩) ∧
    (∀ t, classify ("text=" ++ t) = ⟨.Text, t⟩) ∧
    (∀ s, jsStartsWith s "xpath=" = false → jsStartsWith s "text=" = false →
      classify s = ⟨.CSS, s⟩) ∧
    classify "xpath=//div[@id=\"x\"]" = ⟨.XPath, "//div[@id=\"x\"]"⟩ ∧
    classify "text=Submit" = ⟨.Text, "Submit"⟩ ∧
    classify ".btn-primary" = ⟨.CSS, ".btn-primary"⟩ := by
  refine ⟨?_, ?_, ?_, by decide, by decide, by decide⟩
  · intro t
    unfold classify
    rw [jsStartsWith_prepend]
    simp only [if_true]
    rw [jsReplaceEmpty_prepend _ _ (by decide)]
  · intro t
    unfold classify
    rw [textPrefix_not_xpath, jsStartsWith_prepend]
    simp only [if_true, Bool.false_eq_true, if_false]
    rw [jsReplaceEmpty_prepend _ _ (by decide)]
  · intro s h1 h2
    unfold classify
    rw [h1, h2]
    simp

/-- Witness for C4: the quantified parts applied at concrete selector
strings. -/
theorem claim_C4_witness :
    classify ("xpath=" ++ "a") = ⟨.XPath, "a"⟩ ∧
    classify ("text=" ++ "Go") = ⟨.Text, "Go"⟩ ∧
    classify "#id" = ⟨.CSS, "#id"⟩ :=
  ⟨claim_C4.1 "a", claim_C4.2.1 "Go",
    claim_C4.2.2.1 "#id" (by decide) (by decide)⟩

theorem makeRequest_unfold (respond : Nat → Nat) (mr d attempts : Nat) :
    makeRequest respond mr d attempts =
      if respond attempts ≥ 500 ∧ attempts + 1 < mr then
        ((makeRequest respond mr d (attempts + 1)).1,
         (makeRequest respond mr d (attempts + 1)).2.1,
         d :: (makeRequest respond mr d (attempts + 1)).2.2)
      else (respond attempts, attempts + 1, []) := by
  rw [makeRequest]
  split
  · rfl
  · rfl

theorem makeRequest_stop (respond : Nat → Nat) (mr d attempts : Nat)
    (hg : ¬(respond attempts ≥ 500 ∧ attempts + 1 < mr)) :
    attempts < (makeRequest respond mr d attempts).2.1 ∧
    (makeRequest respond mr d attempts).2.1 ≤ max mr (attempts + 1) ∧
    (makeRequest respond mr d attempts).1 =
      respond ((makeRequest respond mr d attempts).2.1 - 1) ∧
    (∀ i, attempts ≤ i → i + 1 < (makeRequest respond mr d attempts).2.1 →
      respond i ≥ 500) ∧
    ((makeRequest respond mr d attempts).1 < 500 ∨
      (makeRequest respond mr d attempts).2.1 ≥ mr) ∧
    (makeRequest respond mr d attempts).2.2 =
      List.replicate ((makeRequest respond mr d attempts).2.1 - 1 - attempts) d := by
  rw [makeRequest_unfold, if_neg hg]
  dsimp only
  refine ⟨Nat.lt_succ_self _, le_max_right _ _, by simp, ?_, ?_, by simp⟩
  · intro i h1 h2
    omega
  · by_cases h5 : respond attempts < 500
    · exact Or.inl h5
    · right
      omega

theorem makeRequest_spec (respond : Nat → Nat) (mr d : Nat) :
    ∀ fuel attempts, mr ≤ attempts + fuel →
      attempts < (makeRequest respond mr d attempts).2.1 ∧
      (makeRequest respond mr d attempts).2.1 ≤ max mr (attempts + 1) ∧
      (makeRequest respond mr d attempts).1 =
        respond ((makeRequest respond mr d attempts).2.1 - 1) ∧
      (∀ i, attempts ≤ i → i + 1 < (makeRequest respond mr d attempts).2.1 →
        respond i ≥ 500) ∧
      ((makeRequest respond mr d attempts).1 < 500 ∨
        (makeRequest respond mr d attempts).2.1 ≥ mr) ∧
      (makeRequest respond mr d attempts).2.2 =
        List.replicate ((makeRequest respond mr d attempts).2.1 - 1 - attempts) d := by
  intro fuel
  induction fuel with
  | zero =>
    intro attempts hle
    exact makeRequest_stop respond mr d attempts (by omega)
  | succ f ih =>
    intro attempts hle
    by_cases hg : respond attempts ≥ 500 ∧ attempts + 1 < mr
    · rw [makeRequest_unfold, if_pos hg]
      obtain ⟨ih1, ih2, ih3, ih4, ih5, ih6⟩ := ih (attempts + 1) (by omega)
      dsimp only
      refine ⟨by omega, by omega, ih3, ?_, ih5, ?_⟩
      · intro i h1 h2
        by_cases hi : i = attempts
        · rw [hi]; exact hg.1
        · exact ih4 i (by omega) h2
      · rw [ih6,
          show (makeRequest respond mr d (attempts + 1)).2.1 - 1 - attempts =
            ((makeRequest respond mr d (attempts + 1)).2.1 - 1 - (attempts + 1)) + 1
            by omega,
          List.replicate_succ]
    · exact makeRequest_stop respond mr d attempts hg

/-- C10 (amended): `retryRequest` is total — it never raises, and in
every case returns the final response, whose status is
`respond (attempts - 1)`.  It retries only while the status is `>= 500`
and fewer than `maxRetries` attempts have been made, so it performs at
most `max maxRetries 1` total attempts: the first request is issued
unconditionally, so `maxRetries = 0` still yields one attempt (the
claim said at most `maxRetries`).  Every non-final response had status
`>= 500`, the run stops only on a sub-500 status or on reaching the
attempt bound, and one fixed delay precedes each attempt after the
first. -/
theorem claim_C10 (respond : Nat → Nat) (mr d : Nat) :
    1 ≤ (retryRequest respond mr d).2.1 ∧
    (retryRequest respond mr d).2.1 ≤ max mr 1 ∧
    (retryRequest respond mr d).1 =
      respond ((retryRequest respond mr d).2.1 - 1) ∧
    (∀ i, i + 1 < (retryRequest respond mr d).2.1 → respond i ≥ 500) ∧
    ((retryRequest respond mr d).1 < 500 ∨ (retryRequest respond mr d).2.1 ≥ mr) ∧
    (retryRequest respond mr d).2.2 =
      List.replicate ((retryRequest respond mr d).2.1 - 1) d := by
  obtain ⟨h1, h2, h3, h4, h5, h6⟩ :=
    makeRequest_spec respond mr d mr 0 (by omega)
  refine ⟨h1, ?_, h3, fun i hi => h4 i (Nat.zero_le i) hi, h5, ?_⟩
  · simpa using h2
  · simpa using h6

/-- Counterexample for C10: with `maxRetries = 0` the code still issues
one request (`attempts++` precedes the bound check), so the total
attempt count exceeds `maxRetries` — the claimed bound of at most
`maxRetries` total attempts fails. -/
theorem claim_C10_counterexample :
    retryRequest (fun _ => 200) 0 1000 = (200, 1, []) ∧
    ¬((retryRequest (fun _ => 200) 0 1000).2.1 ≤ 0) := by
  have h : retryRequest (fun _ => 200) 0 1000 = (200, 1, []) := by
    rw [retryRequest, makeRequest_unfold]
    norm_num
  exact ⟨h, by rw [h]; norm_num⟩

/-- Witness for C10: a server answering 503 forever, with
`maxRetries = 3`, `delay = 50`: three attempts are made (within the
`max 3 1` bound), each non-final response was a 503, and two delays of
50 precede attempts two and three. -/
theorem claim_C10_witness :
    1 ≤ (retryRequest (fun _ => 503) 3 50).2.1 ∧
    (retryRequest (fun _ => 503) 3 50).2.1 ≤ max 3 1 ∧
    (503 : Nat) ≥ 500 ∧
    retryRequest (fun _ => 503) 3 50 = (503, 3, [50, 50]) := by
  have hval : retryRequest (fun _ => 503) 3 50 = (503, 3, [50, 50]) := by
    rw [retryRequest, makeRequest_unfold]
    norm_num
    rw [makeRequest_unfold]
    norm_num
    rw [makeRequest_unfold]
    norm_num
  refine ⟨(claim_C10 (fun _ => 503) 3 50).1,
    (claim_C10 (fun _ => 503) 3 50).2.1,
    (claim_C10 (fun _ => 503) 3 50).2.2.2.1 0 (by rw [hval]; norm_num),
    hval⟩

/-- C1: for a page whose document is present in the store (and truthy,
as every parsed YAML mapping is), a first resolution from a cache with
no entry for the page performs exactly one document-store read and
caches the document; a second resolution returns the identical result
with zero reads and leaves the cache unchanged — hence, by determinism,
every subsequent resolution is identical and read-free; and after
`clearLocatorCache` the next resolution performs one read again. -/
theorem claim_C1 (fs : String → Option YamlVal) (dirname : String)
    (cache : Cache) (p k : String) (doc : YamlVal)
    (hfs : fs (absLocatorPath dirname p) = some doc)
    (htr : truthy doc = true)
    (hmiss : cacheGet cache p = none) :
    getLocator fs dirname cache p k =
      (getLocatorPure doc p k, (p, doc) :: cache, 1) ∧
    getLocator fs dirname ((p, doc) :: cache) p k =
      (getLocatorPure doc p k, (p, doc) :: cache, 0) ∧
    getLocator fs dirname clearLocatorCache p k =
      (getLocatorPure doc p k, (p, doc) :: clearLocatorCache, 1) := by
  have hfs1 : fs (dirname ++ "/" ++ ("cypress/locators/" ++ p ++ ".yaml")) = some doc := hfs
  have hhit : cacheGet ((p, doc) :: cache) p = some doc := by
    unfold cacheGet
    rw [List.find?_cons_of_pos _ (by simp)]
    dsimp only
    rw [htr]
    simp
  refine ⟨?_, ?_, ?_⟩
  · simp only [getLocator, loadLocators, readYamlFile, hmiss, hfs1]
  · simp only [getLocator, loadLocators, hhit]
  · have hmiss0 : cacheGet clearLocatorCache p = none := rfl
    simp only [getLocator, loadLocators, readYamlFile, hmiss0, hfs1]

/-- Witness for C1: the login document under directory `/app`, resolved
from the empty cache, then from the populated cache, then from a
cleared cache. -/
theorem claim_C1_witness :
    getLocator loginFs "/app" [] "login" "btn" =
      (getLocatorPure loginDoc "login" "btn", [("login", loginDoc)], 1) ∧
    getLocator loginFs "/app" [("login", loginDoc)] "login" "btn" =
      (getLocatorPure loginDoc "login" "btn", [("login", loginDoc)], 0) ∧
    getLocator loginFs "/app" clearLocatorCache "login" "btn" =
      (getLocatorPure loginDoc "login" "btn",
       ("login", loginDoc) :: clearLocatorCache, 1) :=
  claim_C1 loginFs "/app" [] "login" "btn" loginDoc rfl rfl rfl

/-- C7: when the cache does not hold the page (so the store is actually
consulted), `load` fails iff the backing file is absent at the resolved
absolute path `<dirname>/cypress/locators/<pageName>.yaml`, and the
failure message names exactly that path; when the file exists, `load`
returns its parsed contents. -/
theorem claim_C7 (fs : String → Option YamlVal) (dirname : String)
    (cache : Cache) (p : String)
    (hmiss : cacheGet cache p = none) :
    (fs (absLocatorPath dirname p) = none →
      loadLocators fs dirname cache p =
        (.error ⟨"YAML file not found: " ++ absLocatorPath dirname p, none, []⟩,
         cache, 1)) ∧
    (∀ doc, fs (absLocatorPath dirname p) = some doc →
      loadLocators fs dirname cache p = (.ok doc, (p, doc) :: cache, 1)) := by
  constructor
  · intro habs
    have habs1 : fs (dirname ++ "/" ++ ("cypress/locators/" ++ p ++ ".yaml")) = none := habs
    simp only [loadLocators, readYamlFile, hmiss, habs1]
    rfl
  · intro doc hdoc
    have hdoc1 : fs (dirname ++ "/" ++ ("cypress/locators/" ++ p ++ ".yaml")) = some doc := hdoc
    simp only [loadLocators, readYamlFile, hmiss, hdoc1]

/-- Witness for C7: a missing page fails with the resolved absolute
path in the message; the present login page loads its parsed document. -/
theorem claim_C7_witness :
    loadLocators loginFs "/app" [] "missing" =
      (.error ⟨"YAML file not found: " ++ absLocatorPath "/app" "missing",
        none, []⟩, [], 1) ∧
    loadLocators loginFs "/app" [] "login" =
      (.ok loginDoc, [("login", loginDoc)], 1) :=
  ⟨(claim_C7 loginFs "/app" [] "missing" rfl).1 rfl,
   (claim_C7 loginFs "/app" [] "login" rfl).2 loginDoc rfl⟩

theorem jsOr_elim (a : Option YamlVal) (b : YamlVal) :
    jsOr a b = b ∨ ∃ v, a = some v ∧ jsOr a b = v := by
  cases a with
  | none => exact Or.inl rfl
  | some v =>
    by_cases h : truthy v
    · exact Or.inr ⟨v, rfl, by simp [jsOr, h]⟩
    · exact Or.inl (by simp [jsOr, h])

/-- Counterexample for C2: in `shadowedDoc` the document root — one of
the three claimed fallback namespaces — maps `btn` to the truthy
selector `#btn`, yet `resolve("login", "btn")` fails: the code selects
the first present namespace (`loginPage`) and never falls back to the
key in a later namespace, refuting the claim that resolve succeeds
whenever any of the three namespaces contains the key. -/
theorem claim_C2_counterexample :
    jsIndex shadowedDoc "btn" = some (.str "#btn") ∧
    truthy (.str "#btn") = true ∧
    getLocatorPure shadowedDoc "login" "btn" =
      .error (notFoundErr "login" "btn") :=
  ⟨rfl, rfl, rfl⟩

/-- C2 (amended): the namespace fallback acts on namespace *presence*,
not on key membership — resolve selects the first present (truthy)
namespace among the `{pageName}Page` key, the `{pageName}` key and the
document root, and looks the element key up only in that one namespace,
succeeding iff it maps the key to a truthy value.  In particular, when
both page-name keys are absent and the key sits at the document root
with a truthy selector, resolve succeeds (the preserved positive part
of the claim). -/
theorem claim_C2 (doc : YamlVal) (p k : String) :
    (jsIndex doc (p ++ "Page") = none → jsIndex doc p = none →
      ∀ v, jsIndex doc k = some v → truthy v = true →
        getLocatorPure doc p k = .ok v) ∧
    (∀ v, jsIndex (pageLocators doc p) k = some v → truthy v = true →
      getLocatorPure doc p k = .ok v) ∧
    (jsIndex (pageLocators doc p) k = none →
      getLocatorPure doc p k = .error (notFoundErr p k)) ∧
    (∀ ns, jsIndex doc (p ++ "Page") = some ns → truthy ns = true →
      pageLocators doc p = ns) := by
  refine ⟨?_, ?_, ?_, ?_⟩
  · intro h1 h2 v hv htv
    have hpl : pageLocators doc p = doc := by
      unfold pageLocators
      rw [h1, h2]
      rfl
    simp only [getLocatorPure]
    rw [hpl, hv]
    simp [htv]
  · intro v hv htv
    simp only [getLocatorPure]
    rw [hv]
    simp [htv]
  · intro h
    simp only [getLocatorPure]
    rw [h]
  · intro ns hns htns
    unfold pageLocators
    rw [hns]
    simp [jsOr, htns]

/-- Witness for C2: in a flat document resolve finds the root key; in
the nested login document the `loginPage` namespace is the selected
one. -/
theorem claim_C2_witness :
    getLocatorPure flatDoc "login" "btn" = .ok (.str "#b") ∧
    pageLocators loginDoc "login" = .obj [("btn", .str "#b")] :=
  ⟨(claim_C2 flatDoc "login" "btn").1 rfl rfl (.str "#b") rfl rfl,
   (claim_C2 loginDoc "login" "btn").2.2.2 (.obj [("btn", .str "#b")]) rfl rfl⟩

/-- Counterexample for C6: the lookup failure is thrown as a plain
JavaScript `Error` — it carries no `type` tag at all (so the central
error handler would classify it as `Unknown`), not an
`ElementNotFound`-class `TestError`; only the message part of the claim
holds. -/
theorem claim_C6_counterexample :
    getLocatorPure (YamlVal.obj []) "login" "missingKey" =
      .error (notFoundErr "login" "missingKey") ∧
    (notFoundErr "login" "missingKey").message =
      "Locator not found: login.missingKey" ∧
    (notFoundErr "login" "missingKey").etype ≠ some "ELEMENT_NOT_FOUND" :=
  ⟨rfl, rfl, by decide⟩

/-- C6 (amended): for every element key found in none of the lookup
namespaces of a loaded document, resolve fails with an *untyped* plain
error whose message is exactly `Locator not found: <pageName>.<elementKey>`
— the message is as claimed, but the error carries no
`ELEMENT_NOT_FOUND` classification. -/
theorem claim_C6 (doc : YamlVal) (p k : String)
    (hroot : jsIndex doc k = none)
    (hpage : ∀ ns, jsIndex doc (p ++ "Page") = some ns → jsIndex ns k = none)
    (hflat : ∀ ns, jsIndex doc p = some ns → jsIndex ns k = none) :
    getLocatorPure doc p k =
      .error ⟨"Locator not found: " ++ p ++ "." ++ k, none, []⟩ := by
  have hsel : jsIndex (pageLocators doc p) k = none := by
    unfold pageLocators
    rcases jsOr_elim (jsIndex doc (p ++ "Page")) (jsOr (jsIndex doc p) doc)
      with h | ⟨ns, hA, h⟩
    · rw [h]
      rcases jsOr_elim (jsIndex doc p) doc with h2 | ⟨ns2, hB, h2⟩
      · rw [h2]; exact hroot
      · rw [h2]; exact hflat ns2 hB
    · rw [h]; exact hpage ns hA
  simp only [getLocatorPure]
  rw [hsel]
  rfl

/-- Witness for C6: a document with an empty root has the key in no
namespace; the failure message is exactly the claimed one. -/
theorem claim_C6_witness :
    getLocatorPure (YamlVal.obj []) "login" "missingKey" =
      .error ⟨"Locator not found: login.missingKey", none, []⟩ :=
  claim_C6 (.obj []) "login" "missingKey" rfl
    (fun _ h => nomatch h) (fun _ h => nomatch h)

/-- C9: a key that is present in the selected namespace but mapped to a
falsy selector (the empty string) produces exactly the
`Locator not found` error, indistinguishable at the interface from the
key being absent — the code checks the truthiness of the value, not key
membership. -/
theorem claim_C9 (doc doc2 : YamlVal) (p k : String)
    (hempty : jsIndex (pageLocators doc p) k = some (.str ""))
    (habsent : jsIndex (pageLocators doc2 p) k = none) :
    getLocatorPure doc p k = .error (notFoundErr p k) ∧
    getLocatorPure doc p k = getLocatorPure doc2 p k := by
  have h1 : getLocatorPure doc p k = .error (notFoundErr p k) := by
    simp only [getLocatorPure]
    rw [hempty]
    rfl
  have h2 : getLocatorPure doc2 p k = .error (notFoundErr p k) := by
    simp only [getLocatorPure]
    rw [habsent]
  exact ⟨h1, h1.trans h2.symm⟩

/-- Witness for C9: `btn ↦ ""` behaves exactly like an empty document. -/
theorem claim_C9_witness :
    getLocatorPure emptySelDoc "login" "btn" =
      .error (notFoundErr "login" "btn") ∧
    getLocatorPure emptySelDoc "login" "btn" =
      getLocatorPure (YamlVal.obj []) "login" "btn" :=
  claim_C9 emptySelDoc (.obj []) "login" "btn" rfl rfl

/-- C5: `validateApiResponse` accumulates every mismatch into one list
and raises a single `API_ERROR`-typed error carrying the whole list
(never failing fast): on the concrete example — expected status 200 /
actual 404, expected property `id` missing, expected `name = X` /
actual `Y` — it raises exactly one error whose details list holds all
three violations in order; when nothing is violated it returns without
raising; and every raised error is `API_ERROR`-typed, carries the full
violation list, and summarises it in its message. -/
theorem claim_C5 :
    validateApiResponse ⟨404, [("name", "Y")]⟩
        ⟨some 200, some ["id"], some [("name", "X")]⟩ =
      .error ⟨"API validation failed: Expected status 200, got 404; " ++
          "Missing property: id; Expected name to be X, got Y",
        some "API_ERROR",
        ["Expected status 200, got 404", "Missing property: id",
         "Expected name to be X, got Y"]⟩ ∧
    validateApiResponse ⟨200, [("id", "1"), ("name", "X")]⟩
        ⟨some 200, some ["id"], some [("name", "X")]⟩ = .ok () ∧
    (∀ r e err, validateApiResponse r e = .error err →
      err.etype = some "API_ERROR" ∧
      err.errs = apiViolations r e ∧
      err.message = "API validation failed: " ++
        String.intercalate "; " err.errs) ∧
    (∀ r e, apiViolations r e = [] → validateApiResponse r e = .ok ()) := by
  refine ⟨by rfl, by rfl, ?_, ?_⟩
  · intro r e err herr
    unfold validateApiResponse at herr
    by_cases h : (apiViolations r e).length > 0
    · rw [if_pos h] at herr
      obtain ⟨rfl⟩ : err = ⟨"API validation failed: " ++
          String.intercalate "; " (apiViolations r e),
          some "API_ERROR", apiViolations r e⟩ := by
        exact (Except.error.injEq _ _).mp herr.symm
      exact ⟨rfl, rfl, rfl⟩
    · rw [if_neg h] at herr
      exact absurd herr (by simp)
  · intro r e h
    unfold validateApiResponse
    rw [h]
    rfl

/-- Witness for C5: the quantified parts applied to the concrete
failing and passing examples. -/
theorem claim_C5_witness :
    (ErrJS.mk ("API validation failed: Expected status 200, got 404; " ++
        "Missing property: id; Expected name to be X, got Y")
      (some "API_ERROR")
      ["Expected status 200, got 404", "Missing property: id",
       "Expected name to be X, got Y"]).etype = some "API_ERROR" ∧
    validateApiResponse ⟨200, []⟩ ⟨none, none, none⟩ = .ok () :=
  ⟨((claim_C5.2.2.1 ⟨404, [("name", "Y")]⟩
      ⟨some 200, some ["id"], some [("name", "X")]⟩ _ (by rfl)).1),
   claim_C5.2.2.2 ⟨200, []⟩ ⟨none, none, none⟩ (by rfl)⟩

/-- Counterexample for C8: on the selector `text=Submit` in
`textOnlyDom` the exists check of the Resolver reports the element
present (the body text contains `Submit`), yet `safeClick` raises
`ELEMENT_NOT_FOUND` and performs no click — its guard feeds the raw
prefixed string to a CSS `$body.find`, which is only the CSS branch of
the exists check, so `safeClick` does not probe existence via the
exists check of the Resolver. -/
theorem claim_C8_counterexample :
    existsProbe textOnlyDom "text=Submit" = true ∧
    safeClick textOnlyDom "text=Submit" 10000 false =
      .error ⟨"Element not found: text=Submit",
        some "ELEMENT_NOT_FOUND", []⟩ :=
  ⟨rfl, rfl⟩

/-- C8 (amended): `safeClick` guards on a plain CSS `$body.find` count
of the raw selector string — agreeing with the exists check of the
Resolver on prefix-free (CSS) selectors, but not on `xpath=`/`text=`
ones; when the guard fails it raises an `ELEMENT_NOT_FOUND`-typed error
at once, performing no click and no retry (the action list of a failure
is empty by construction); when it succeeds it performs exactly one
click carrying the timeout and force flags of the caller. -/
theorem claim_C8 (dom : Dom) (selector : String)
    (timeout : Nat) (force : Bool) :
    (dom.bodyFindCount selector = 0 →
      safeClick dom selector timeout force =
        .error ⟨"Element not found: " ++ selector,
          some "ELEMENT_NOT_FOUND", []⟩) ∧
    (0 < dom.bodyFindCount selector →
      safeClick dom selector timeout force =
        .ok [.click selector timeout force]) ∧
    (jsStartsWith selector "xpath=" = false →
      jsStartsWith selector "text=" = false →
      (existsProbe dom selector = true ↔
        safeClick dom selector timeout force =
          .ok [.click selector timeout force])) := by
  refine ⟨?_, ?_, ?_⟩
  · intro h
    unfold safeClick
    rw [if_neg (by omega)]
  · intro h
    unfold safeClick
    rw [if_pos h]
  · intro h1 h2
    unfold existsProbe safeClick
    rw [h1, h2]
    by_cases hc : dom.bodyFindCount selector > 0
    · simp [hc]
    · simp [hc]

/-- Witness for C8: a DOM with no CSS match fails fast with the typed
error; a DOM with one match yields exactly one click with the given
flags, and on a CSS selector the probe and the click outcome agree. -/
theorem claim_C8_witness :
    safeClick textOnlyDom "#missing" 10000 false =
      .error ⟨"Element not found: #missing", some "ELEMENT_NOT_FOUND", []⟩ ∧
    safeClick oneMatchDom "#x" 10000 true = .ok [.click "#x" 10000 true] ∧
    (existsProbe oneMatchDom "#x" = true ↔
      safeClick oneMatchDom "#x" 10000 true = .ok [.click "#x" 10000 true]) :=
  ⟨(claim_C8 textOnlyDom "#missing" 10000 false).1 rfl,
   (claim_C8 oneMatchDom "#x" 10000 true).2.1 (by decide),
   (claim_C8 oneMatchDom "#x" 10000 true).2.2 rfl rfl⟩

end CypressFw
